import Mathlib

/-!
# Verification of the SillyTavern group-chat turn-taking engine

Shallow embedding of `src/public/scripts/group-chats.js`: the member
activation resolver (`activateImpersonate`, `activateSwipe`,
`activateListOrder`, `activateNaturalOrder`) and the generation turn
sequencer (`generateGroupWrapper`), together with proofs of the spec's
testable properties.

JavaScript's `Math.random()` is modelled by explicit oracle parameters:
`shuffled` (the outcome of `shuffle([...members])`, constrained to be a
permutation in theorems), `rolls : ℕ → ℚ` (the stream of talkativeness
rolls, each in `[0,1)`), and `picks : ℕ → ℕ` (the stream of
`Math.floor(Math.random() * members.length)` draws, each `< members.length`).
Machine floating point is modelled by `ℚ`; the only operations involved are
comparisons, which floats decide exactly on these ranges.
-/

namespace GroupChats

/-- A character record from the external character registry (`characters`
array in `script.js`). `talkativeness` is `none` when `Number(...)` of the
stored value would be `NaN` (malformed / non-numeric). -/
structure Character where
  avatar : String
  name : String
  talkativeness : Option ℚ
  deriving Repr, DecidableEq

/-- A chat-log message record. `original_avatar` is the explicit
original-author tag (absent on legacy messages); the JS code treats an
empty-string tag as falsy, which the embedding reproduces at the use site. -/
structure Message where
  name : String
  is_user : Bool
  is_system : Bool
  mes : String
  original_avatar : Option String
  deriving Repr, DecidableEq

/-- A group record: ordered member avatar keys, the subset disabled,
activation strategy (`0 = NATURAL`, `1 = LIST`), self-response flag. -/
structure Group where
  members : List String
  disabled_members : List String
  activation_strategy : ℕ
  allow_self_responses : Bool
  deriving Repr, DecidableEq

/-- Modelled from the spec: "a malformed/non-numeric talkativeness falls
back to a system default constant" (`talkativeness_default` lives in
`script.js`, which is not under `src/`; its concrete value does not affect
any claim below). -/
def talkativeness_default : ℚ := ⟨1, 2, by decide, by decide⟩

/-- The rational `1/2`, written as an explicit `Rat` structure literal so
that concrete random-oracle instantiations evaluate inside the kernel. -/
def half : ℚ := ⟨1, 2, by decide, by decide⟩

/-- `characters.find(x => x.avatar === member)`. -/
def findCharacter (chars : List Character) (av : String) : Option Character :=
  chars.find? (fun c => c.avatar = av)

/-- `characters.findIndex(y => y.avatar === x)` followed by the
`.filter(x => x !== -1)` convention: `none` stands for `-1`. -/
def findAvatarIndex (chars : List Character) (av : String) : Option ℕ :=
  match chars with
  | [] => none
  | c :: rest => if c.avatar = av then some 0 else (findAvatarIndex rest av).map (· + 1)

/-- Auxiliary de-duplication walk: keep an element iff it has not been
seen before. -/
def uniqueFirstAux : List String → List String → List String
  | [], _ => []
  | x :: xs, seen =>
    if x ∈ seen then uniqueFirstAux xs seen
    else x :: uniqueFirstAux xs (x :: seen)

/-- Modelled from the spec: "De-duplicate the combined list preserving
first-occurrence order" (`onlyUnique` from `utils.js`, which is not under
`src/`, keeps an element iff its index equals its first index, i.e. keeps
the first occurrence of each element). -/
def uniqueFirst (l : List String) : List String :=
  uniqueFirstAux l []

/-- Modelled from the spec: "tokenize the triggering input into words"
(`extractAllWords` from `utils.js`, which is not under `src/`: lowercase
word tokens split on non-alphanumeric characters). -/
def extractAllWords (value : String) : List String :=
  (((value.toList.map Char.toLower).splitOnP (fun c => !c.isAlphanum)).filter
    (fun l => l ≠ [])).map List.asString

/-- `activateImpersonate(members)`: pick the member at the random index
(`ipick` models `Math.floor(Math.random() * members.length)`), then map to
registry indices, dropping `-1`. -/
def activateImpersonate (chars : List Character) (members : List String) (ipick : ℕ) :
    List ℕ :=
  match members.get? ipick with
  | none => []
  | some m =>
    match findAvatarIndex chars m with
    | none => []
    | some i => [i]

/-- `activateSwipe(members)`: re-derive the last message's author from the
explicit `original_avatar` tag when present (and non-empty, since JS
truthiness discards `""`), otherwise name-match the last message's display
name against characters whose avatar is a current member (first match
wins); then map to registry indices, dropping `-1`. -/
def activateSwipe (chars : List Character) (members : List String) (lastMes : Message) :
    List ℕ :=
  let nameMatch : List String :=
    match (chars.filter (fun c => c.name = lastMes.name)).find?
        (fun c => c.avatar ∈ members) with
    | none => []
    | some c => [c.avatar]
  let activatedNames : List String :=
    match lastMes.original_avatar with
    | none => nameMatch
    | some av => if av = "" then nameMatch else [av]
  activatedNames.filterMap (findAvatarIndex chars)

/-- `activateListOrder(members)`: de-duplicate, then map to registry
indices, dropping `-1`. -/
def activateListOrder (chars : List Character) (members : List String) : List ℕ :=
  (uniqueFirst members).filterMap (findAvatarIndex chars)

/-- The `bannedUser` computation of `activateNaturalOrder`:
`!isUserInput && lastMessage && !lastMessage.is_user && lastMessage.name`,
overridden to `undefined` when self-responses are allowed. (`none` stands
for the falsy outcomes, which `character.name === bannedUser` can never
match.) -/
def bannedUserOf (isUserInput : Bool) (lastMessage : Option Message)
    (allowSelfResponses : Bool) : Option String :=
  if allowSelfResponses then none
  else if isUserInput then none
  else match lastMessage with
    | none => none
    | some lm => if lm.is_user then none else some lm.name

/-- Inner member scan of the mention pass: the first member whose character
resolves, is not banned, and whose name-words contain the input word
(`break` after the first push). -/
def findMentionedMember (chars : List Character) (banned : Option String)
    (members : List String) (w : String) : Option String :=
  members.find? (fun m =>
    match findCharacter chars m with
    | none => false
    | some c =>
      if banned = some c.name then false
      else decide (w ∈ extractAllWords c.name))

/-- Mention pass of `activateNaturalOrder`: for each input word in order,
push the first matching member (members already pushed are pushed again;
de-duplication happens at the end). -/
def mentionPass (chars : List Character) (banned : Option String)
    (members : List String) : List String → List String
  | [] => []
  | w :: ws =>
    match findMentionedMember chars banned members w with
    | none => mentionPass chars banned members ws
    | some m => m :: mentionPass chars banned members ws

/-- `Number(character.talkativeness)` with the `NaN` fallback. -/
def talkativenessOf (c : Character) : ℚ :=
  match c.talkativeness with
  | none => talkativeness_default
  | some t => t

/-- Chattiness pass of `activateNaturalOrder`: walk the shuffled member
list; skip unresolvable or banned members (consuming no roll, as the JS
`continue` precedes `Math.random()`); otherwise draw the next roll and
activate iff `talkativeness >= rollValue`. `k` indexes the roll stream. -/
def chattinessPass (chars : List Character) (banned : Option String)
    (rolls : ℕ → ℚ) : List String → ℕ → List String
  | [], _ => []
  | m :: rest, k =>
    match findCharacter chars m with
    | none => chattinessPass chars banned rolls rest k
    | some c =>
      if banned = some c.name then chattinessPass chars banned rolls rest k
      else if rolls k ≤ talkativenessOf c then
        m :: chattinessPass chars banned rolls rest (k + 1)
      else chattinessPass chars banned rolls rest (k + 1)

/-- Guarantee pass of `activateNaturalOrder`:
`while (activatedMembers.length === 0 && ++retries <= members.length)`,
each iteration picking `members[Math.floor(Math.random() * members.length)]`
and skipping it when the character registry cannot resolve it (a skip still
consumes a retry). `fuel` is the remaining retries, `k` the pick-stream
index. -/
def guaranteePass (chars : List Character) (members : List String)
    (picks : ℕ → ℕ) : ℕ → ℕ → List String
  | 0, _ => []
  | fuel + 1, k =>
    match members.get? (picks k) with
    | none => guaranteePass chars members picks fuel (k + 1)
    | some m =>
      match findCharacter chars m with
      | none => guaranteePass chars members picks fuel (k + 1)
      | some _ => [m]

/-- `activateNaturalOrder(members, input, lastMessage, allowSelfResponses,
isUserInput)`: banned-member computation, mention pass (guarded by
`input && input.length`), chattiness pass over the shuffled members,
guarantee pass when nobody was activated, then de-duplication and mapping
to registry indices (dropping `-1`). -/
def activateNaturalOrder (chars : List Character) (members : List String)
    (input : String) (lastMessage : Option Message) (allowSelfResponses : Bool)
    (isUserInput : Bool) (shuffled : List String) (rolls : ℕ → ℚ)
    (picks : ℕ → ℕ) : List ℕ :=
  let banned := bannedUserOf isUserInput lastMessage allowSelfResponses
  let mentioned :=
    if input = "" then []
    else mentionPass chars banned members (extractAllWords input)
  let afterChattiness := mentioned ++ chattinessPass chars banned rolls shuffled 0
  let activatedMembers :=
    if afterChattiness = [] then
      guaranteePass chars members picks members.length 0
    else afterChattiness
  (uniqueFirst activatedMembers).filterMap (findAvatarIndex chars)

/-! ## The generation turn sequencer (`generateGroupWrapper`) -/

/-- The `type` argument of `generateGroupWrapper` (`null`, `"quiet"`,
`"swipe"`, `"continue"`, `"impersonate"`). -/
inductive GenKind where
  | normal
  | quiet
  | swipe
  | cont
  | impersonate
  deriving Repr, DecidableEq

/-- `type == "swipe" || type == "impersonate" || type == "quiet" ||
type == 'continue' ? type : "group_chat"`. -/
def generateTypeOf : GenKind → String
  | GenKind.quiet => "quiet"
  | GenKind.swipe => "swipe"
  | GenKind.cont => "continue"
  | GenKind.impersonate => "impersonate"
  | GenKind.normal => "group_chat"

/-- The UI / module-level mutable state touched by the sequencer:
`is_group_generating`, the `setSendButtonState` flag, the send-textarea
`disabled` attribute, `deactivateSendButtons`/`activateSendButtons`, the
active character context (`setCharacterId` / `setCharacterName`), and swipe
button visibility. -/
structure UIState where
  isGroupGenerating : Bool
  sendButtonState : Bool
  textareaDisabled : Bool
  sendButtonsActive : Bool
  activeCharId : Option ℕ
  activeCharName : String
  swipeButtonsVisible : Bool
  deriving Repr, DecidableEq

/-- Observable outcome of one `generateGroupWrapper` invocation: final UI
state, final chat log, the `Generate(...)` calls issued (character index and
generate type, in order), the user messages forwarded through
`sendMessageAsUser`, the `toastr.warning` texts, the system messages sent,
and the error that escaped the `try` block (re-thrown after `finally`), if
any. -/
structure Outcome where
  state : UIState
  chat : List Message
  generateCalls : List (ℕ × String)
  sentUserMessages : List String
  warnings : List String
  systemMessages : List String
  error : Option String
  deriving Repr, DecidableEq

/-- Member-resolution step of the wrapper (lines 500–526): forced member,
quiet, swipe/continue, impersonate, or dispatch on the activation strategy.
Returns the activated character indices or the thrown error, plus any
warning surfaced during resolution. `Except.error` for the swipe path with
no resolvable author (`'Deleted group member swiped'`) and for the JS
`TypeError` of `activateSwipe` reading `chat[chat.length - 1]` of an empty
chat. -/
def resolveActivation (chars : List Character) (g : Group) (kind : GenKind)
    (force_chid : Option ℕ) (activationText : String)
    (lastMessage : Option Message) (isUserInput : Bool)
    (shuffled : List String) (rolls : ℕ → ℚ) (picks : ℕ → ℕ) (ipick : ℕ) :
    Except String (List ℕ) × List String :=
  let enabledMembers := g.members.filter (fun x => x ∉ g.disabled_members)
  match force_chid with
  | some c => (Except.ok [c], [])
  | none =>
    match kind with
    | GenKind.quiet =>
      match lastMessage with
      | none => (Except.error "TypeError: chat is empty", [])
      | some lm =>
        let s := activateSwipe chars g.members lm
        if s = [] then (Except.ok (activateListOrder chars (g.members.take 1)), [])
        else (Except.ok s, [])
    | GenKind.swipe =>
      match lastMessage with
      | none => (Except.error "TypeError: chat is empty", [])
      | some lm =>
        let s := activateSwipe chars g.members lm
        if s = [] then
          (Except.error "Deleted group member swiped",
           ["Deleted group member swiped. To get a reply, add them back to the group."])
        else (Except.ok s, [])
    | GenKind.cont =>
      match lastMessage with
      | none => (Except.error "TypeError: chat is empty", [])
      | some lm =>
        let s := activateSwipe chars g.members lm
        if s = [] then
          (Except.error "Deleted group member swiped",
           ["Deleted group member swiped. To get a reply, add them back to the group."])
        else (Except.ok s, [])
    | GenKind.impersonate =>
      (Except.ok (activateImpersonate chars g.members ipick), [])
    | GenKind.normal =>
      if g.activation_strategy = 0 then
        (Except.ok (activateNaturalOrder chars enabledMembers activationText
          lastMessage g.allow_self_responses isUserInput shuffled rolls picks), [])
      else if g.activation_strategy = 1 then
        (Except.ok (activateListOrder chars enabledMembers), [])
      else (Except.ok [], [])

/-- The per-member generation loop (lines 539–649). `genOk k = none` means
the `k`-th `Generate` call and its completion-detector poll finished
normally; `some e` means the iteration threw (`'Group generation aborted'`
from the abort flag, or any failure out of `Generate`). `characters[chId]`
of an unresolvable index throws after `setCharacterId(chId)` already ran.
Returns the final UI state, the `Generate` calls made, and the escaping
error, if any. -/
def genLoop (chars : List Character) (kind : GenKind)
    (genOk : ℕ → Option String) :
    List ℕ → ℕ → UIState → List (ℕ × String) →
    UIState × List (ℕ × String) × Option String
  | [], _, st, acc => (st, acc, none)
  | chid :: rest, k, st, acc =>
    let st1 := { st with sendButtonsActive := false, activeCharId := some chid }
    match chars.get? chid with
    | none => (st1, acc, some "TypeError: characters[chId] is undefined")
    | some c =>
      let st2 := { st1 with activeCharName := c.name }
      let acc2 := acc ++ [(chid, generateTypeOf kind)]
      match genOk k with
      | some e => (st2, acc2, some e)
      | none => genLoop chars kind genOk rest (k + 1) st2 acc2

/-- The `try` block body (lines 434–649), from `hideSwipeButtons()` to the
end of the generation loop. Produces the outcome *before* the `finally`
cleanup is applied. -/
def tryBody (chars : List Character) (g : Group) (chat : List Message)
    (userInput : String) (by_auto_mode : Bool) (kind : GenKind)
    (force_chid : Option ℕ) (signalAborted : Bool) (shuffled : List String)
    (rolls : ℕ → ℚ) (picks : ℕ → ℕ) (ipick : ℕ) (genOk : ℕ → Option String)
    (st : UIState) : Outcome :=
  let st1 := { st with swipeButtonsVisible := false, isGroupGenerating := true,
                       activeCharName := "", activeCharId := none }
  let lastMessage := chat.getLast?
  let isUserInput := userInput ≠ "" ∧ ¬by_auto_mode
  let activationText :=
    if userInput ≠ "" ∧ ¬by_auto_mode then userInput
    else match lastMessage with
      | some lm => if lm.is_system then "" else lm.mes
      | none => ""
  if signalAborted then
    { state := st1, chat := chat, generateCalls := [], sentUserMessages := [],
      warnings := [], systemMessages := [],
      error := some "Already aborted signal passed. Group generation stopped" }
  else
    let st2 := if kind = GenKind.impersonate then { st1 with textareaDisabled := true }
               else st1
    match resolveActivation chars g kind force_chid activationText lastMessage
        (decide isUserInput) shuffled rolls picks ipick with
    | (Except.error e, ws) =>
      { state := st2, chat := chat, generateCalls := [], sentUserMessages := [],
        warnings := ws, systemMessages := [], error := some e }
    | (Except.ok activatedMembers, ws) =>
      let emptyWarnings :=
        if activatedMembers = [] then
          ws ++ ["All group members are disabled. Enable at least one to get a reply."]
        else ws
      let sent := if activatedMembers = [] then [userInput] else []
      let chat2 := if activatedMembers = [] then
          chat ++ [{ name := "user", is_user := true, is_system := false,
                     mes := userInput, original_avatar := none }]
        else chat
      let r := genLoop chars kind genOk activatedMembers 0 st2 []
      { state := r.1, chat := chat2, generateCalls := r.2.1,
        sentUserMessages := sent, warnings := emptyWarnings,
        systemMessages := [], error := r.2.2 }

/-- The `finally` block (lines 650–662): hide the typing indicator, clear
`is_group_generating`, re-enable the textarea, reset the send button state,
clear the active character context, re-activate send buttons, show swipe
buttons. -/
def finallyCleanup (st : UIState) : UIState :=
  { st with isGroupGenerating := false, textareaDisabled := false,
            sendButtonState := false, activeCharId := none,
            activeCharName := "", sendButtonsActive := true,
            swipeButtonsVisible := true }

/-- `generateGroupWrapper(by_auto_mode, type, params)`. Guards in source
order: the `no_connection` early return (which clears
`is_group_generating` and the send-button state), the `is_group_generating`
mutual-exclusion early return, the missing-group / empty-member-list early
return (system message `EMPTY`); otherwise the `try` body runs and the
`finally` cleanup is applied to whatever state the body left. -/
def generateGroupWrapper (chars : List Character) (online_status : String)
    (group? : Option Group) (chat : List Message) (userInput : String)
    (by_auto_mode : Bool) (kind : GenKind) (force_chid : Option ℕ)
    (signalAborted : Bool) (shuffled : List String) (rolls : ℕ → ℚ)
    (picks : ℕ → ℕ) (ipick : ℕ) (genOk : ℕ → Option String)
    (st : UIState) : Outcome :=
  if online_status = "no_connection" then
    { state := { st with isGroupGenerating := false, sendButtonState := false },
      chat := chat, generateCalls := [], sentUserMessages := [], warnings := [],
      systemMessages := [], error := none }
  else if st.isGroupGenerating then
    { state := st, chat := chat, generateCalls := [], sentUserMessages := [],
      warnings := [], systemMessages := [], error := none }
  else
    match group? with
    | none =>
      { state := st, chat := chat, generateCalls := [], sentUserMessages := [],
        warnings := [], systemMessages := ["EMPTY"], error := none }
    | some g =>
      if g.members = [] then
        { state := st, chat := chat, generateCalls := [], sentUserMessages := [],
          warnings := [], systemMessages := ["EMPTY"], error := none }
      else
        let r := tryBody chars g chat userInput by_auto_mode kind force_chid
          signalAborted shuffled rolls picks ipick genOk st
        { r with state := finallyCleanup r.state }

/-- The spec's §8 scenario registry: member A = Alice with talkativeness
`1.0`, member B = Bob with talkativeness `0.0`. -/
def scenarioChars : List Character :=
  [⟨"a.png", "Alice", some 1⟩, ⟨"b.png", "Bob", some 0⟩]

/-- The spec's §8 scenario last message: a non-user, non-system message
from A (Alice), with no text and no author tag. -/
def scenarioLastMessage : Message :=
  ⟨"Alice", false, false, "", none⟩

/-- The C8 scenario registry: Dana and Elle. -/
def quietChars : List Character :=
  [⟨"d.png", "Dana", some 1⟩, ⟨"e.png", "Elle", some 1⟩]

/-- The C8 scenario group: Dana listed first but disabled, Elle enabled. -/
def quietGroup : Group :=
  ⟨["d.png", "e.png"], ["d.png"], 0, false⟩

/-- The C8 scenario last message: untagged, display name matching no
character. -/
def quietLastMessage : Message :=
  ⟨"Xavier", false, false, "hi", none⟩

/-- A UI state at rest, used to instantiate wrapper theorems. -/
def idleUI : UIState :=
  ⟨false, false, false, true, none, "", true⟩

/-- A UI state in the middle of another generation cycle, used to
instantiate the mutual-exclusion and no-connection theorems. -/
def busyUI : UIState :=
  ⟨true, true, true, false, some 3, "Alice", false⟩

/-! ## Helper lemmas -/

theorem mem_uniqueFirstAux {a : String} :
    ∀ {l seen : List String}, a ∈ uniqueFirstAux l seen → a ∈ l := by
  intro l
  induction l with
  | nil => intro seen h; simp [uniqueFirstAux] at h
  | cons x xs ih =>
    intro seen h
    simp only [uniqueFirstAux] at h
    by_cases hx : x ∈ seen
    · simp only [if_pos hx] at h
      exact List.mem_cons_of_mem _ (ih h)
    · simp only [if_neg hx, List.mem_cons] at h
      rcases h with h | h
      · exact h ▸ List.mem_cons_self _ _
      · exact List.mem_cons_of_mem _ (ih h)

theorem uniqueFirstAux_not_mem_seen {a : String} :
    ∀ {l seen : List String}, a ∈ uniqueFirstAux l seen → a ∉ seen := by
  intro l
  induction l with
  | nil => intro seen h; simp [uniqueFirstAux] at h
  | cons x xs ih =>
    intro seen h
    simp only [uniqueFirstAux] at h
    by_cases hx : x ∈ seen
    · simp only [if_pos hx] at h
      exact ih h
    · simp only [if_neg hx, List.mem_cons] at h
      rcases h with h | h
      · exact h ▸ hx
      · intro hseen
        exact ih h (List.mem_cons_of_mem _ hseen)

theorem uniqueFirstAux_nodup :
    ∀ (l seen : List String), (uniqueFirstAux l seen).Nodup := by
  intro l
  induction l with
  | nil => intro seen; simp [uniqueFirstAux]
  | cons x xs ih =>
    intro seen
    simp only [uniqueFirstAux]
    by_cases hx : x ∈ seen
    · simp only [if_pos hx]; exact ih seen
    · simp only [if_neg hx]
      refine List.nodup_cons.2 ⟨?_, ih (x :: seen)⟩
      intro hmem
      exact uniqueFirstAux_not_mem_seen hmem (List.mem_cons_self _ _)

theorem uniqueFirst_nodup (l : List String) : (uniqueFirst l).Nodup :=
  uniqueFirstAux_nodup l []

theorem mem_uniqueFirst {a : String} {l : List String}
    (h : a ∈ uniqueFirst l) : a ∈ l :=
  mem_uniqueFirstAux h

theorem uniqueFirst_ne_nil {l : List String} (h : l ≠ []) : uniqueFirst l ≠ [] := by
  cases l with
  | nil => exact absurd rfl h
  | cons x xs =>
    simp [uniqueFirst, uniqueFirstAux]

theorem findAvatarIndex_isSome_iff (chars : List Character) (av : String) :
    (findAvatarIndex chars av).isSome ↔ (findCharacter chars av).isSome := by
  induction chars with
  | nil => simp [findAvatarIndex, findCharacter]
  | cons c rest ih =>
    by_cases h : c.avatar = av
    · simp [findAvatarIndex, findCharacter, List.find?, h]
    · have h' : (decide (c.avatar = av)) = false := decide_eq_false h
      simp only [findAvatarIndex, if_neg h, findCharacter, List.find?, h']
      cases hfa : findAvatarIndex rest av <;>
        cases hfc : List.find? (fun c => decide (c.avatar = av)) rest <;>
        simp_all [findCharacter]

theorem findAvatarIndex_inj {chars : List Character} :
    ∀ {a b : String} {i : ℕ}, findAvatarIndex chars a = some i →
    findAvatarIndex chars b = some i → a = b := by
  induction chars with
  | nil => intro a b i ha; simp [findAvatarIndex] at ha
  | cons c rest ih =>
    intro a b i ha hb
    simp only [findAvatarIndex] at ha hb
    by_cases hca : c.avatar = a <;> by_cases hcb : c.avatar = b
    · rw [← hca, ← hcb]
    · rw [if_pos hca] at ha
      rw [if_neg hcb] at hb
      obtain ⟨j, hjb, hj⟩ := Option.map_eq_some'.1 hb
      injection ha with ha'
      exact absurd (ha' ▸ hj) (by omega)
    · rw [if_neg hca] at ha
      rw [if_pos hcb] at hb
      obtain ⟨j, hja, hj⟩ := Option.map_eq_some'.1 ha
      injection hb with hb'
      exact absurd (hb' ▸ hj) (by omega)
    · rw [if_neg hca] at ha
      rw [if_neg hcb] at hb
      obtain ⟨j, hja, hj⟩ := Option.map_eq_some'.1 ha
      obtain ⟨j', hjb, hj'⟩ := Option.map_eq_some'.1 hb
      have hjj : j = j' := by omega
      exact ih hja (hjj ▸ hjb)

theorem mem_mentionPass {chars : List Character} {banned : Option String}
    {members : List String} {m : String} :
    ∀ {ws : List String}, m ∈ mentionPass chars banned members ws →
    ∃ c, findCharacter chars m = some c ∧ banned ≠ some c.name := by
  intro ws
  induction ws with
  | nil => intro h; simp [mentionPass] at h
  | cons w ws ih =>
    intro h
    simp only [mentionPass] at h
    cases hf : findMentionedMember chars banned members w with
    | none =>
      rw [hf] at h
      exact ih h
    | some m' =>
      rw [hf] at h
      rcases List.mem_cons.1 h with h | h
      · subst h
        have hp := List.find?_some hf
        cases hc : findCharacter chars m with
        | none => rw [hc] at hp; simp at hp
        | some c =>
          rw [hc] at hp
          dsimp only at hp
          by_cases hb : banned = some c.name
          · rw [if_pos hb] at hp; simp at hp
          · exact ⟨c, rfl, hb⟩
      · exact ih h

theorem mem_chattinessPass {chars : List Character} {banned : Option String}
    {rolls : ℕ → ℚ} {m : String} :
    ∀ {l : List String} {k : ℕ}, m ∈ chattinessPass chars banned rolls l k →
    ∃ c, findCharacter chars m = some c ∧ banned ≠ some c.name := by
  intro l
  induction l with
  | nil => intro k h; simp [chattinessPass] at h
  | cons x xs ih =>
    intro k h
    simp only [chattinessPass] at h
    cases hc : findCharacter chars x with
    | none =>
      rw [hc] at h
      exact ih h
    | some c =>
      rw [hc] at h
      dsimp only at h
      by_cases hb : banned = some c.name
      · rw [if_pos hb] at h
        exact ih h
      · rw [if_neg hb] at h
        by_cases hr : rolls k ≤ talkativenessOf c
        · rw [if_pos hr] at h
          rcases List.mem_cons.1 h with h | h
          · subst h; exact ⟨c, hc, hb⟩
          · exact ih h
        · rw [if_neg hr] at h
          exact ih h

theorem chattinessPass_eq_nil {chars : List Character} {banned : Option String}
    {rolls : ℕ → ℚ} {l : List String}
    (h : ∀ m ∈ l, ∀ k : ℕ, ∀ c, findCharacter chars m = some c →
      banned = some c.name ∨ ¬ rolls k ≤ talkativenessOf c) :
    ∀ k, chattinessPass chars banned rolls l k = [] := by
  induction l with
  | nil => intro k; simp [chattinessPass]
  | cons x xs ih =>
    intro k
    have hx := h x (List.mem_cons_self _ _)
    have hxs : ∀ m ∈ xs, ∀ k : ℕ, ∀ c, findCharacter chars m = some c →
        banned = some c.name ∨ ¬ rolls k ≤ talkativenessOf c :=
      fun m hm => h m (List.mem_cons_of_mem _ hm)
    simp only [chattinessPass]
    cases hc : findCharacter chars x with
    | none => exact ih hxs k
    | some c =>
      dsimp only
      by_cases hb : banned = some c.name
      · rw [if_pos hb]
        exact ih hxs k
      · rw [if_neg hb]
        have hr : ¬ rolls k ≤ talkativenessOf c := (hx k c hc).resolve_left hb
        rw [if_neg hr]
        exact ih hxs (k + 1)

theorem mentionPass_nil_members {chars : List Character} {banned : Option String} :
    ∀ (ws : List String), mentionPass chars banned [] ws = [] := by
  intro ws
  induction ws with
  | nil => simp [mentionPass]
  | cons w ws ih =>
    simp only [mentionPass, findMentionedMember, List.find?]
    exact ih

theorem get?_some_of_lt {l : List String} {n : ℕ} (h : n < l.length) :
    ∃ a, l.get? n = some a ∧ a ∈ l := by
  induction l generalizing n with
  | nil => simp at h
  | cons x xs ih =>
    cases n with
    | zero => exact ⟨x, rfl, List.mem_cons_self _ _⟩
    | succ n =>
      obtain ⟨a, ha, hmem⟩ := ih (Nat.lt_of_succ_lt_succ h)
      exact ⟨a, ha, List.mem_cons_of_mem _ hmem⟩

theorem guaranteePass_of_all_resolvable {chars : List Character}
    {members : List String} {picks : ℕ → ℕ}
    (hres : ∀ m ∈ members, (findCharacter chars m).isSome)
    (hpick : picks 0 < members.length) :
    ∃ m ∈ members, guaranteePass chars members picks members.length 0 = [m] := by
  obtain ⟨a, ha, hmem⟩ := get?_some_of_lt hpick
  refine ⟨a, hmem, ?_⟩
  obtain ⟨c, hc⟩ := Option.isSome_iff_exists.1 (hres a hmem)
  cases hml : members.length with
  | zero =>
    rw [hml] at hpick
    omega
  | succ n =>
    simp only [guaranteePass, ha, hc]

theorem filterMap_fai_ne_nil {chars : List Character} {l : List String} {a : String}
    (hmem : a ∈ l) (hsome : (findAvatarIndex chars a).isSome) :
    l.filterMap (findAvatarIndex chars) ≠ [] := by
  intro hnil
  have h := List.filterMap_eq_nil_iff.1 hnil a hmem
  rw [h] at hsome
  simp at hsome

/-! ## Claim theorems -/

/-- C3 (corrected form): natural-order resolution on a non-empty member
list *all of whose members resolve in the character registry* returns a
non-empty result for every random outcome: either the mention/chattiness
passes activate someone (who is then resolvable by construction), or the
guarantee pass's first retry picks a member, which resolves and is
activated. -/
theorem activateNaturalOrder_nonempty
    (chars : List Character) (members : List String) (input : String)
    (lastMessage : Option Message) (allowSelf isUserInput : Bool)
    (shuffled : List String) (rolls : ℕ → ℚ) (picks : ℕ → ℕ)
    (hne : members ≠ [])
    (hres : ∀ m ∈ members, (findCharacter chars m).isSome)
    (hsh : shuffled.Perm members)
    (hpicks : ∀ n, picks n < members.length) :
    activateNaturalOrder chars members input lastMessage allowSelf isUserInput
      shuffled rolls picks ≠ [] := by
  simp only [activateNaturalOrder]
  set banned := bannedUserOf isUserInput lastMessage allowSelf with hbanned
  set mentioned :=
    (if input = "" then []
     else mentionPass chars banned members (extractAllWords input)) with hm
  set chatty := chattinessPass chars banned rolls shuffled 0 with hch
  by_cases hA : mentioned ++ chatty = []
  · rw [if_pos hA]
    obtain ⟨m, hmem, hg⟩ := guaranteePass_of_all_resolvable hres (hpicks 0)
    rw [hg]
    have hu : uniqueFirst [m] = [m] := by
      simp [uniqueFirst, uniqueFirstAux]
    rw [hu]
    exact filterMap_fai_ne_nil (List.mem_singleton.2 rfl)
      ((findAvatarIndex_isSome_iff _ _).2 (hres m hmem))
  · rw [if_neg hA]
    have hUA : uniqueFirst (mentioned ++ chatty) ≠ [] := uniqueFirst_ne_nil hA
    obtain ⟨a, ha⟩ := List.exists_mem_of_ne_nil _ hUA
    have haA : a ∈ mentioned ++ chatty := mem_uniqueFirst ha
    have hsome : (findCharacter chars a).isSome := by
      rcases List.mem_append.1 haA with h | h
      · by_cases hin : input = ""
        · rw [hm, if_pos hin] at h
          simp at h
        · rw [hm, if_neg hin] at h
          obtain ⟨c, hc, _⟩ := mem_mentionPass h
          rw [hc]
          rfl
      · obtain ⟨c, hc, _⟩ := mem_chattinessPass (hch ▸ h)
        rw [hc]
        rfl
    exact filterMap_fai_ne_nil ha ((findAvatarIndex_isSome_iff _ _).2 hsome)

/-- Witness for `activateNaturalOrder_nonempty`: a single resolvable
enabled member, identity shuffle, constant rolls of one half, constant
pick index zero. -/
theorem activateNaturalOrder_nonempty_witness :
    (["a.png"] : List String) ≠ [] ∧
    activateNaturalOrder [⟨"a.png", "Alice", some 1⟩] ["a.png"] "" none false
      false ["a.png"] (fun _ => half) (fun _ => 0) ≠ [] := by
  refine ⟨by decide, ?_⟩
  exact activateNaturalOrder_nonempty _ _ _ _ _ _ _ _ _ (by decide) (by decide)
    (List.Perm.refl _) (fun n => by decide)

/-- C3 counterexample: a group whose single enabled member does not resolve
in the character registry (a deleted character still listed as a member)
makes every pass skip it, so the result is empty even though the member
list is non-empty — refuting the claim that natural-order resolution always
yields at least one speaker for a non-empty member list. The oracle used is
valid: every roll is `0 ∈ [0,1)` and every pick index is `0 < 1`. -/
theorem activateNaturalOrder_unresolvable_empty :
    (["ghost.png"] : List String).length = 1 ∧
    activateNaturalOrder [] ["ghost.png"] "" none false false ["ghost.png"]
      (fun _ => 0) (fun _ => 0) = [] := by decide

/-- Computation helper: when the mention and chattiness passes both come
out empty, `activateNaturalOrder` is the guarantee pass followed by
de-duplication and registry mapping. -/
theorem activateNaturalOrder_eq_guarantee (chars : List Character)
    (members : List String) (input : String) (lastMessage : Option Message)
    (allowSelf isUserInput : Bool) (shuffled : List String) (rolls : ℕ → ℚ)
    (picks : ℕ → ℕ)
    (hmention : (if input = "" then []
      else mentionPass chars (bannedUserOf isUserInput lastMessage allowSelf)
        members (extractAllWords input)) = [])
    (hchatty : chattinessPass chars
      (bannedUserOf isUserInput lastMessage allowSelf) rolls shuffled 0 = []) :
    activateNaturalOrder chars members input lastMessage allowSelf isUserInput
      shuffled rolls picks =
    (uniqueFirst (guaranteePass chars members picks members.length 0)).filterMap
      (findAvatarIndex chars) := by
  simp only [activateNaturalOrder, hmention, hchatty, List.nil_append,
    List.append_nil, if_pos]

/-- C4 (corrected form): in the spec's scenario (A = Alice with
talkativeness 1.0, B = Bob with talkativeness 0.0, NATURAL policy,
non-user-triggered, last message from A, self-responses disallowed), the
banned member A is indeed never activated by the mention pass or the
chattiness pass; but the guarantee pass draws from the full member list
including A, so only when its first pick is B (`picks 0 = 1`) is the result
`[B]`. (The counterexample shows the pick can equally be A, refuting
"never [A]".) Rolls are constrained to `(0,1)`, so B's `0.0` talkativeness
never wins a chattiness roll. -/
theorem activateNaturalOrder_banned_scenario (shuffled : List String)
    (rolls : ℕ → ℚ) (picks : ℕ → ℕ)
    (hsh : shuffled.Perm ["a.png", "b.png"])
    (hroll : ∀ n, 0 < rolls n ∧ rolls n < 1)
    (hpick : picks 0 = 1) :
    "a.png" ∉ mentionPass scenarioChars (some "Alice") ["a.png", "b.png"]
      (extractAllWords scenarioLastMessage.mes) ∧
    "a.png" ∉ chattinessPass scenarioChars (some "Alice") rolls shuffled 0 ∧
    activateNaturalOrder scenarioChars ["a.png", "b.png"] ""
      (some scenarioLastMessage) false false shuffled rolls picks = [1] := by
  have hfa : findCharacter scenarioChars "a.png" =
      some ⟨"a.png", "Alice", some 1⟩ := by decide
  refine ⟨?_, ?_, ?_⟩
  · intro hmem
    obtain ⟨c, hc, hbn⟩ := mem_mentionPass hmem
    rw [hfa] at hc
    injection hc with hc
    exact hbn (by rw [← hc])
  · intro hmem
    obtain ⟨c, hc, hbn⟩ := mem_chattinessPass hmem
    rw [hfa] at hc
    injection hc with hc
    exact hbn (by rw [← hc])
  · have hchatty : chattinessPass scenarioChars (some "Alice") rolls shuffled 0
        = [] := by
      refine chattinessPass_eq_nil ?_ 0
      intro m hm k c hc
      have hm2 : m ∈ ["a.png", "b.png"] := hsh.mem_iff.1 hm
      rcases List.mem_cons.1 hm2 with h | h
      · subst h
        rw [hfa] at hc
        injection hc with hc
        left
        rw [← hc]
      · have hb : m = "b.png" := by simpa using h
        subst hb
        have hcb : findCharacter scenarioChars "b.png" =
            some ⟨"b.png", "Bob", some 0⟩ := by decide
        rw [hcb] at hc
        injection hc with hc
        right
        rw [← hc]
        intro hle
        exact absurd (lt_of_lt_of_le (hroll k).1 hle) (by decide)
    have hbanned : bannedUserOf false (some scenarioLastMessage) false =
        some "Alice" := rfl
    have hmention : (if ("" : String) = "" then []
        else mentionPass scenarioChars
          (bannedUserOf false (some scenarioLastMessage) false)
          ["a.png", "b.png"] (extractAllWords "")) = ([] : List String) := by
      simp
    have hg : guaranteePass scenarioChars ["a.png", "b.png"] picks
        (["a.png", "b.png"] : List String).length 0 = ["b.png"] := by
      have h1 : (["a.png", "b.png"] : List String).get? (picks 0) =
          some "b.png" := by rw [hpick]; rfl
      show guaranteePass scenarioChars ["a.png", "b.png"] picks 2 0 = ["b.png"]
      simp only [guaranteePass, h1]
      rfl
    rw [activateNaturalOrder_eq_guarantee _ _ _ _ _ _ _ _ _ hmention
      (by rw [hbanned]; exact hchatty), hg]
    decide

/-- Witness for `activateNaturalOrder_banned_scenario`: identity shuffle,
all rolls one half, all picks index 1 (B). -/
theorem activateNaturalOrder_banned_scenario_witness :
    "a.png" ∉ mentionPass scenarioChars (some "Alice") ["a.png", "b.png"]
      (extractAllWords scenarioLastMessage.mes) ∧
    "a.png" ∉ chattinessPass scenarioChars (some "Alice") (fun _ => half)
      ["a.png", "b.png"] 0 ∧
    activateNaturalOrder scenarioChars ["a.png", "b.png"] ""
      (some scenarioLastMessage) false false ["a.png", "b.png"]
      (fun _ => half) (fun _ => 1) = [1] := by
  have hr : ∀ n : ℕ, (0 : ℚ) < half ∧ half < 1 := fun _ => ⟨by decide, by decide⟩
  exact activateNaturalOrder_banned_scenario ["a.png", "b.png"] (fun _ => half)
    (fun _ => 1) (List.Perm.refl _) hr rfl

/-- C4 counterexample: same scenario, same valid oracle kind (rolls of one
half lie in `[0,1)`, pick index `0 < 2`), but the guarantee pass's pick
lands on A — the result is `[0]`, the registry index of the banned member
A = Alice. This refutes "the resolved result excludes A in every random
outcome". -/
theorem activateNaturalOrder_banned_scenario_cex :
    activateNaturalOrder scenarioChars ["a.png", "b.png"] ""
      (some scenarioLastMessage) false false ["a.png", "b.png"]
      (fun _ => half) (fun _ => 0) = [0] ∧
    (0 : ℚ) < half ∧ half < 1 ∧
    scenarioChars.get? 0 = some ⟨"a.png", "Alice", some 1⟩ := by decide

/-- When the last message has no author tag and no character sharing its
display name is a current member, `activateSwipe` returns the empty
result. -/
theorem activateSwipe_eq_nil_of_no_match (chars : List Character)
    (members : List String) (lm : Message)
    (htag : lm.original_avatar = none)
    (hname : ∀ c ∈ chars, c.name = lm.name → c.avatar ∉ members) :
    activateSwipe chars members lm = [] := by
  have hfind : (chars.filter (fun c => c.name = lm.name)).find?
      (fun c => c.avatar ∈ members) = none := by
    rw [List.find?_eq_none]
    intro c hc
    have hc2 := List.mem_filter.1 hc
    have h3 := hname c hc2.1 (by simpa using hc2.2)
    simpa using h3
  simp only [activateSwipe, htag, hfind]
  rfl

/-- C6 (corrected form): when the last message carries an explicit
non-empty author tag and the tagged author resolves in the character
registry to index `i`, the result is exactly `[i]` — and it does not depend
on the display name or on the member list (so the name-matching fallback is
never consulted): any other message with the same tag, over any other
member list, gives the same result. Without registry resolvability the
tagged path yields the empty result (see the counterexample), which is why
the amended claim adds that hypothesis. -/
theorem activateSwipe_tagged (chars : List Character)
    (members members' : List String) (lm lm' : Message) (av : String) (i : ℕ)
    (htag : lm.original_avatar = some av) (htag' : lm'.original_avatar = some av)
    (hne : av ≠ "") (hmem : av ∈ members)
    (hidx : findAvatarIndex chars av = some i) :
    activateSwipe chars members lm = [i] ∧
    activateSwipe chars members' lm' = [i] := by
  constructor
  · simp [activateSwipe, htag, hne, hidx]
  · simp [activateSwipe, htag', hne, hidx]

/-- Witness for `activateSwipe_tagged`: registry with one character, two
messages sharing the tag but differing in display name, two different
member lists. -/
theorem activateSwipe_tagged_witness :
    activateSwipe [⟨"a.png", "Alice", some 1⟩] ["a.png"]
      ⟨"Alice", false, false, "hi", some "a.png"⟩ = [0] ∧
    activateSwipe [⟨"a.png", "Alice", some 1⟩] []
      ⟨"Zed", false, false, "bye", some "a.png"⟩ = [0] :=
  activateSwipe_tagged [⟨"a.png", "Alice", some 1⟩] ["a.png"] []
    ⟨"Alice", false, false, "hi", some "a.png"⟩
    ⟨"Zed", false, false, "bye", some "a.png"⟩ "a.png" 0 rfl rfl (by decide)
    (by decide) (by decide)

/-- C6 counterexample: the last message is tagged with an author who is a
current member, but that author does not resolve in the character registry
(deleted character); the result is empty, not "exactly that single
author" — refuting the claim as stated, whose hypothesis does not require
registry resolvability. -/
theorem activateSwipe_tagged_unresolvable :
    ("a.png" : String) ∈ (["a.png"] : List String) ∧
    activateSwipe [] ["a.png"] ⟨"Alice", false, false, "", some "a.png"⟩
      = [] := by decide

/-- Every `filterMap` by `findAvatarIndex` of a duplicate-free avatar list
is duplicate-free: distinct avatars map to distinct registry indices. -/
theorem nodup_filterMap_findAvatarIndex {chars : List Character}
    {l : List String} (h : l.Nodup) :
    (l.filterMap (findAvatarIndex chars)).Nodup := by
  refine List.Nodup.filterMap ?_ h
  intro a a' b hb hb'
  exact findAvatarIndex_inj (Option.mem_def.1 hb) (Option.mem_def.1 hb')

theorem activateListOrder_nodup (chars : List Character) (members : List String) :
    (activateListOrder chars members).Nodup :=
  nodup_filterMap_findAvatarIndex (uniqueFirst_nodup members)

theorem activateNaturalOrder_nodup (chars : List Character)
    (members : List String) (input : String) (lastMessage : Option Message)
    (allowSelf isUserInput : Bool) (shuffled : List String) (rolls : ℕ → ℚ)
    (picks : ℕ → ℕ) :
    (activateNaturalOrder chars members input lastMessage allowSelf isUserInput
      shuffled rolls picks).Nodup := by
  simp only [activateNaturalOrder]
  exact nodup_filterMap_findAvatarIndex (uniqueFirst_nodup _)

theorem activateSwipe_nodup (chars : List Character) (members : List String)
    (lm : Message) : (activateSwipe chars members lm).Nodup := by
  simp only [activateSwipe]
  cases htag : lm.original_avatar with
  | none =>
    cases hfind : (chars.filter (fun c => c.name = lm.name)).find?
        (fun c => c.avatar ∈ members) with
    | none => simp
    | some c =>
      cases hidx : findAvatarIndex chars c.avatar <;> simp [hidx]
  | some av =>
    by_cases hav : av = ""
    · subst hav
      simp only [if_pos rfl]
      cases hfind : (chars.filter (fun c => c.name = lm.name)).find?
          (fun c => c.avatar ∈ members) with
      | none => simp
      | some c =>
        cases hidx : findAvatarIndex chars c.avatar <;> simp [hidx]
    · simp only [if_neg hav]
      cases hidx : findAvatarIndex chars av <;> simp [hidx]

theorem activateImpersonate_nodup (chars : List Character)
    (members : List String) (ipick : ℕ) :
    (activateImpersonate chars members ipick).Nodup := by
  simp only [activateImpersonate]
  cases members.get? ipick with
  | none => simp
  | some m =>
    cases hidx : findAvatarIndex chars m <;> simp [hidx]

/-- C7: no activation result — from any resolution path (forced, quiet,
swipe, continue, impersonate, natural, list) — contains a duplicate
character index: forced results are singletons, swipe and impersonate
results have at most one element, and list/natural results are
de-duplicated before the registry mapping, which sends distinct avatars to
distinct indices. -/
theorem resolveActivation_nodup (chars : List Character) (g : Group)
    (kind : GenKind) (force_chid : Option ℕ) (activationText : String)
    (lastMessage : Option Message) (isUserInput : Bool)
    (shuffled : List String) (rolls : ℕ → ℚ) (picks : ℕ → ℕ) (ipick : ℕ)
    (l : List ℕ) (ws : List String)
    (h : resolveActivation chars g kind force_chid activationText lastMessage
      isUserInput shuffled rolls picks ipick = (Except.ok l, ws)) :
    l.Nodup := by
  simp only [resolveActivation] at h
  cases hf : force_chid with
  | some c =>
    rw [hf] at h
    simp only [Prod.mk.injEq, Except.ok.injEq] at h
    rw [← h.1]
    simp
  | none =>
    rw [hf] at h
    cases kind with
    | quiet =>
      cases hlm : lastMessage with
      | none => rw [hlm] at h; simp at h
      | some lm =>
        rw [hlm] at h
        dsimp only at h
        by_cases hs : activateSwipe chars g.members lm = []
        · rw [if_pos hs] at h
          simp only [Prod.mk.injEq, Except.ok.injEq] at h
          rw [← h.1]
          exact activateListOrder_nodup _ _
        · rw [if_neg hs] at h
          simp only [Prod.mk.injEq, Except.ok.injEq] at h
          rw [← h.1]
          exact activateSwipe_nodup _ _ _
    | swipe =>
      cases hlm : lastMessage with
      | none => rw [hlm] at h; simp at h
      | some lm =>
        rw [hlm] at h
        dsimp only at h
        by_cases hs : activateSwipe chars g.members lm = []
        · rw [if_pos hs] at h
          simp at h
        · rw [if_neg hs] at h
          simp only [Prod.mk.injEq, Except.ok.injEq] at h
          rw [← h.1]
          exact activateSwipe_nodup _ _ _
    | cont =>
      cases hlm : lastMessage with
      | none => rw [hlm] at h; simp at h
      | some lm =>
        rw [hlm] at h
        dsimp only at h
        by_cases hs : activateSwipe chars g.members lm = []
        · rw [if_pos hs] at h
          simp at h
        · rw [if_neg hs] at h
          simp only [Prod.mk.injEq, Except.ok.injEq] at h
          rw [← h.1]
          exact activateSwipe_nodup _ _ _
    | impersonate =>
      simp only [Prod.mk.injEq, Except.ok.injEq] at h
      rw [← h.1]
      exact activateImpersonate_nodup _ _ _
    | normal =>
      by_cases h0 : g.activation_strategy = 0
      · rw [if_pos h0] at h
        simp only [Prod.mk.injEq, Except.ok.injEq] at h
        rw [← h.1]
        exact activateNaturalOrder_nodup _ _ _ _ _ _ _ _ _
      · rw [if_neg h0] at h
        by_cases h1 : g.activation_strategy = 1
        · rw [if_pos h1] at h
          simp only [Prod.mk.injEq, Except.ok.injEq] at h
          rw [← h.1]
          exact activateListOrder_nodup _ _
        · rw [if_neg h1] at h
          simp only [Prod.mk.injEq, Except.ok.injEq] at h
          rw [← h.1]
          simp

/-- Witness for `resolveActivation_nodup`: a LIST-policy resolution over a
two-member group, yielding the duplicate-free result `[0, 1]`. -/
theorem resolveActivation_nodup_witness :
    resolveActivation scenarioChars ⟨["a.png", "b.png"], [], 1, false⟩
      GenKind.normal none "" none false [] (fun _ => 0) (fun _ => 0) 0
      = (Except.ok [0, 1], []) ∧ ([0, 1] : List ℕ).Nodup := by
  refine ⟨rfl, ?_⟩
  exact resolveActivation_nodup scenarioChars ⟨["a.png", "b.png"], [], 1, false⟩
    GenKind.normal none "" none false [] (fun _ => 0) (fun _ => 0) 0 [0, 1] []
    rfl

/-- C8 (corrected form): quiet resolution first attempts swipe-style
resolution of the last message's author; when that result is non-empty it
is returned as is, and when it is empty the fallback is the *first member
of the full member list* — regardless of whether that member is disabled —
mapped to its registry index. (The claim said "first enabled member"; the
counterexample shows a disabled first member is picked.) -/
theorem resolveActivation_quiet_fallback (chars : List Character) (g : Group)
    (activationText : String) (lm : Message) (isUserInput : Bool)
    (shuffled : List String) (rolls : ℕ → ℚ) (picks : ℕ → ℕ) (ipick : ℕ)
    (m : String) (rest : List String) (i : ℕ)
    (hmem : g.members = m :: rest)
    (hidx : findAvatarIndex chars m = some i) :
    (activateSwipe chars g.members lm ≠ [] →
      resolveActivation chars g GenKind.quiet none activationText (some lm)
        isUserInput shuffled rolls picks ipick =
        (Except.ok (activateSwipe chars g.members lm), [])) ∧
    (activateSwipe chars g.members lm = [] →
      resolveActivation chars g GenKind.quiet none activationText (some lm)
        isUserInput shuffled rolls picks ipick = (Except.ok [i], [])) := by
  constructor
  · intro hs
    simp only [resolveActivation, if_neg hs]
  · intro hs
    simp only [resolveActivation, if_pos hs]
    have htake : g.members.take 1 = [m] := by rw [hmem]; rfl
    rw [htake]
    have hlist : activateListOrder chars [m] = [i] := by
      simp [activateListOrder, uniqueFirst, uniqueFirstAux, hidx]
    rw [hlist]

/-- Witness for `resolveActivation_quiet_fallback`: Dana (disabled) is the
first member; swipe resolution of the untagged, unmatched last message is
empty, so the fallback returns Dana's index `0`. -/
theorem resolveActivation_quiet_fallback_witness :
    (activateSwipe quietChars quietGroup.members quietLastMessage ≠ [] →
      resolveActivation quietChars quietGroup GenKind.quiet none "hi"
        (some quietLastMessage) false [] (fun _ => 0) (fun _ => 0) 0 =
        (Except.ok (activateSwipe quietChars quietGroup.members
          quietLastMessage), [])) ∧
    (activateSwipe quietChars quietGroup.members quietLastMessage = [] →
      resolveActivation quietChars quietGroup GenKind.quiet none "hi"
        (some quietLastMessage) false [] (fun _ => 0) (fun _ => 0) 0 =
        (Except.ok [0], [])) :=
  resolveActivation_quiet_fallback quietChars quietGroup "hi" quietLastMessage
    false [] (fun _ => 0) (fun _ => 0) 0 "d.png" ["e.png"] 0 rfl rfl

/-- C8 counterexample: quiet resolution with empty swipe result falls back
to index `0` — Dana, the *disabled* first member — although the first
*enabled* member is Elle (index `1`). This refutes "falls back to exactly
the single first enabled member". -/
theorem resolveActivation_quiet_disabled_first :
    resolveActivation quietChars quietGroup GenKind.quiet none "hi"
      (some quietLastMessage) false [] (fun _ => 0) (fun _ => 0) 0 =
      (Except.ok [0], []) ∧
    ("d.png" : String) ∈ quietGroup.disabled_members ∧
    quietChars.get? 0 = some ⟨"d.png", "Dana", some 1⟩ ∧
    ("e.png" : String) ∉ quietGroup.disabled_members ∧
    quietChars.get? 1 = some ⟨"e.png", "Elle", some 1⟩ :=
  ⟨rfl, by decide, by decide, by decide, by decide⟩

/-- C1: once the wrapper passes its guards (connected, idle, group present
and non-empty) and enters the `try` block, every exit path — normal
completion, resolver error such as NoMemberFound, an already-aborted
signal, a generation abort or failure at any member — runs the `finally`
cleanup: the Generating flag is false, the textarea re-enabled, the
send-button state reset, send buttons re-activated, the active character
context cleared, swipe buttons shown. -/
theorem generateGroupWrapper_cleanup (chars : List Character)
    (online_status : String) (g : Group) (chat : List Message)
    (userInput : String) (by_auto_mode : Bool) (kind : GenKind)
    (force_chid : Option ℕ) (signalAborted : Bool) (shuffled : List String)
    (rolls : ℕ → ℚ) (picks : ℕ → ℕ) (ipick : ℕ) (genOk : ℕ → Option String)
    (st : UIState)
    (honline : online_status ≠ "no_connection")
    (hidle : st.isGroupGenerating = false)
    (hmembers : g.members ≠ []) :
    (generateGroupWrapper chars online_status (some g) chat userInput
      by_auto_mode kind force_chid signalAborted shuffled rolls picks ipick
      genOk st).state = ⟨false, false, false, true, none, "", true⟩ := by
  simp only [generateGroupWrapper, if_neg honline, hidle, Bool.false_eq_true,
    if_false, if_neg hmembers]
  rfl

/-- Witness for `generateGroupWrapper_cleanup`: a connected, idle call on a
one-member group whose abort signal already fired (an error path), ending
in the fully cleaned-up UI state. -/
theorem generateGroupWrapper_cleanup_witness :
    ("ok" : String) ≠ "no_connection" ∧
    (generateGroupWrapper [] "ok" (some ⟨["x.png"], [], 0, false⟩) [] "" false
      GenKind.normal none true [] (fun _ => 0) (fun _ => 0) 0 (fun _ => none)
      idleUI).state = ⟨false, false, false, true, none, "", true⟩ :=
  ⟨by decide, generateGroupWrapper_cleanup [] "ok" ⟨["x.png"], [], 0, false⟩
    [] "" false GenKind.normal none true [] (fun _ => 0) (fun _ => 0) 0
    (fun _ => none) idleUI (by decide) rfl (by decide)⟩

/-- C2: a call entered while the Generating flag is set starts no
generation, leaves the chat log untouched and forwards no user message —
on both sides of the connection check. -/
theorem generateGroupWrapper_mutex (chars : List Character)
    (online_status : String) (group? : Option Group) (chat : List Message)
    (userInput : String) (by_auto_mode : Bool) (kind : GenKind)
    (force_chid : Option ℕ) (signalAborted : Bool) (shuffled : List String)
    (rolls : ℕ → ℚ) (picks : ℕ → ℕ) (ipick : ℕ) (genOk : ℕ → Option String)
    (st : UIState)
    (hgen : st.isGroupGenerating = true) :
    (generateGroupWrapper chars online_status group? chat userInput
      by_auto_mode kind force_chid signalAborted shuffled rolls picks ipick
      genOk st).generateCalls = [] ∧
    (generateGroupWrapper chars online_status group? chat userInput
      by_auto_mode kind force_chid signalAborted shuffled rolls picks ipick
      genOk st).chat = chat ∧
    (generateGroupWrapper chars online_status group? chat userInput
      by_auto_mode kind force_chid signalAborted shuffled rolls picks ipick
      genOk st).sentUserMessages = [] := by
  by_cases h : online_status = "no_connection" <;>
    simp [generateGroupWrapper, h, hgen]

/-- Witness for `generateGroupWrapper_mutex`: a second call arriving while
`busyUI` records an in-flight cycle issues no `Generate` call and leaves
the chat unchanged. -/
theorem generateGroupWrapper_mutex_witness :
    (generateGroupWrapper [] "ok" (some ⟨["x.png"], [], 0, false⟩) [] "hello"
      false GenKind.normal none false [] (fun _ => 0) (fun _ => 0) 0
      (fun _ => none) busyUI).generateCalls = [] ∧
    (generateGroupWrapper [] "ok" (some ⟨["x.png"], [], 0, false⟩) [] "hello"
      false GenKind.normal none false [] (fun _ => 0) (fun _ => 0) 0
      (fun _ => none) busyUI).chat = [] ∧
    (generateGroupWrapper [] "ok" (some ⟨["x.png"], [], 0, false⟩) [] "hello"
      false GenKind.normal none false [] (fun _ => 0) (fun _ => 0) 0
      (fun _ => none) busyUI).sentUserMessages = [] :=
  generateGroupWrapper_mutex [] "ok" (some ⟨["x.png"], [], 0, false⟩) [] "hello"
    false GenKind.normal none false [] (fun _ => 0) (fun _ => 0) 0
    (fun _ => none) busyUI rfl

/-- C10: with backend status `"no_connection"` the wrapper returns before
the mutual-exclusion check, unconditionally clearing the Generating flag
and the send-button state — in particular, a call arriving while another
cycle is in flight (flag set) clears that cycle's flag instead of leaving
all state unchanged. Nothing else is touched: no generation, no chat
mutation, no warnings, no error. -/
theorem generateGroupWrapper_noConnection (chars : List Character)
    (online_status : String) (group? : Option Group) (chat : List Message)
    (userInput : String) (by_auto_mode : Bool) (kind : GenKind)
    (force_chid : Option ℕ) (signalAborted : Bool) (shuffled : List String)
    (rolls : ℕ → ℚ) (picks : ℕ → ℕ) (ipick : ℕ) (genOk : ℕ → Option String)
    (st : UIState)
    (h : online_status = "no_connection") :
    (generateGroupWrapper chars online_status group? chat userInput
      by_auto_mode kind force_chid signalAborted shuffled rolls picks ipick
      genOk st).state =
      { st with isGroupGenerating := false, sendButtonState := false } ∧
    (generateGroupWrapper chars online_status group? chat userInput
      by_auto_mode kind force_chid signalAborted shuffled rolls picks ipick
      genOk st).chat = chat ∧
    (generateGroupWrapper chars online_status group? chat userInput
      by_auto_mode kind force_chid signalAborted shuffled rolls picks ipick
      genOk st).generateCalls = [] ∧
    (generateGroupWrapper chars online_status group? chat userInput
      by_auto_mode kind force_chid signalAborted shuffled rolls picks ipick
      genOk st).error = none := by
  simp [generateGroupWrapper, h]

/-- Witness for `generateGroupWrapper_noConnection`: the disconnected call
arrives while `busyUI` has the Generating flag set — the flag comes back
false. -/
theorem generateGroupWrapper_noConnection_witness :
    (generateGroupWrapper [] "no_connection" (some ⟨["x.png"], [], 0, false⟩)
      [] "hello" false GenKind.normal none false [] (fun _ => 0) (fun _ => 0)
      0 (fun _ => none) busyUI).state =
      { busyUI with isGroupGenerating := false, sendButtonState := false } ∧
    (generateGroupWrapper [] "no_connection" (some ⟨["x.png"], [], 0, false⟩)
      [] "hello" false GenKind.normal none false [] (fun _ => 0) (fun _ => 0)
      0 (fun _ => none) busyUI).chat = [] ∧
    (generateGroupWrapper [] "no_connection" (some ⟨["x.png"], [], 0, false⟩)
      [] "hello" false GenKind.normal none false [] (fun _ => 0) (fun _ => 0)
      0 (fun _ => none) busyUI).generateCalls = [] ∧
    (generateGroupWrapper [] "no_connection" (some ⟨["x.png"], [], 0, false⟩)
      [] "hello" false GenKind.normal none false [] (fun _ => 0) (fun _ => 0)
      0 (fun _ => none) busyUI).error = none :=
  generateGroupWrapper_noConnection [] "no_connection"
    (some ⟨["x.png"], [], 0, false⟩) [] "hello" false GenKind.normal none
    false [] (fun _ => 0) (fun _ => 0) 0 (fun _ => none) busyUI rfl

/-- Natural-order resolution of an empty member list (with the shuffle of
an empty list) is empty: no pass can activate anyone and the guarantee
pass has zero retries. -/
theorem activateNaturalOrder_nil_members (chars : List Character)
    (input : String) (lastMessage : Option Message) (aS iU : Bool)
    (rolls : ℕ → ℚ) (picks : ℕ → ℕ) :
    activateNaturalOrder chars [] input lastMessage aS iU [] rolls picks
      = [] := by
  have hm : (if input = "" then []
      else mentionPass chars (bannedUserOf iU lastMessage aS) []
        (extractAllWords input)) = ([] : List String) := by
    split
    · rfl
    · exact mentionPass_nil_members _
  rw [activateNaturalOrder_eq_guarantee chars [] input lastMessage aS iU []
    rolls picks hm rfl]
  rfl

/-- C5: a swipe or continue request whose last message carries no author
tag and whose display name matches no current member makes the wrapper
throw the NoMemberFound error (`'Deleted group member swiped'`), surface
the corresponding warning, and invoke no generation for any member. -/
theorem generateGroupWrapper_swipe_noMemberFound (chars : List Character)
    (online_status : String) (g : Group) (chat : List Message)
    (userInput : String) (by_auto_mode : Bool) (kind : GenKind)
    (shuffled : List String) (rolls : ℕ → ℚ) (picks : ℕ → ℕ) (ipick : ℕ)
    (genOk : ℕ → Option String) (st : UIState) (lm : Message)
    (honline : online_status ≠ "no_connection")
    (hidle : st.isGroupGenerating = false)
    (hmembers : g.members ≠ [])
    (hkind : kind = GenKind.swipe ∨ kind = GenKind.cont)
    (hlast : chat.getLast? = some lm)
    (htag : lm.original_avatar = none)
    (hname : ∀ c ∈ chars, c.name = lm.name → c.avatar ∉ g.members) :
    (generateGroupWrapper chars online_status (some g) chat userInput
      by_auto_mode kind none false shuffled rolls picks ipick genOk st).error
      = some "Deleted group member swiped" ∧
    (generateGroupWrapper chars online_status (some g) chat userInput
      by_auto_mode kind none false shuffled rolls picks ipick genOk
      st).generateCalls = [] ∧
    "Deleted group member swiped. To get a reply, add them back to the group."
      ∈ (generateGroupWrapper chars online_status (some g) chat userInput
      by_auto_mode kind none false shuffled rolls picks ipick genOk
      st).warnings := by
  have hswipe : activateSwipe chars g.members lm = [] :=
    activateSwipe_eq_nil_of_no_match chars g.members lm htag hname
  rcases hkind with hk | hk <;> subst hk <;>
    simp [generateGroupWrapper, honline, hidle, hmembers, tryBody, hlast,
      resolveActivation, hswipe, finallyCleanup]

/-- Witness for `generateGroupWrapper_swipe_noMemberFound`: an empty
character registry, a one-member group, an untagged last message from an
unknown name, swiped. -/
theorem generateGroupWrapper_swipe_noMemberFound_witness :
    (generateGroupWrapper [] "ok" (some ⟨["x.png"], [], 0, false⟩)
      [⟨"Nobody", false, false, "hi", none⟩] "" false GenKind.swipe none
      false [] (fun _ => 0) (fun _ => 0) 0 (fun _ => none) idleUI).error
      = some "Deleted group member swiped" ∧
    (generateGroupWrapper [] "ok" (some ⟨["x.png"], [], 0, false⟩)
      [⟨"Nobody", false, false, "hi", none⟩] "" false GenKind.swipe none
      false [] (fun _ => 0) (fun _ => 0) 0 (fun _ => none)
      idleUI).generateCalls = [] ∧
    "Deleted group member swiped. To get a reply, add them back to the group."
      ∈ (generateGroupWrapper [] "ok" (some ⟨["x.png"], [], 0, false⟩)
      [⟨"Nobody", false, false, "hi", none⟩] "" false GenKind.swipe none
      false [] (fun _ => 0) (fun _ => 0) 0 (fun _ => none) idleUI).warnings :=
  generateGroupWrapper_swipe_noMemberFound [] "ok" ⟨["x.png"], [], 0, false⟩
    [⟨"Nobody", false, false, "hi", none⟩] "" false GenKind.swipe [] (fun _ => 0)
    (fun _ => 0) 0 (fun _ => none) idleUI ⟨"Nobody", false, false, "hi", none⟩
    (by decide) rfl (by decide) (Or.inl rfl) rfl rfl (by simp)

/-- C9: when every group member is disabled and a NATURAL- or LIST-policy
cycle is triggered by plain user input (non-empty textarea, not
auto-mode), resolution is empty; the wrapper surfaces the
all-members-disabled warning, still delivers the original input through
the ordinary single-user-message path (appending it to the chat), performs
no member generation, and completes without error. -/
theorem generateGroupWrapper_allDisabled (chars : List Character)
    (online_status : String) (g : Group) (chat : List Message)
    (userInput : String) (shuffled : List String) (rolls : ℕ → ℚ)
    (picks : ℕ → ℕ) (ipick : ℕ) (genOk : ℕ → Option String) (st : UIState)
    (honline : online_status ≠ "no_connection")
    (hidle : st.isGroupGenerating = false)
    (hmembers : g.members ≠ [])
    (hstrat : g.activation_strategy = 0 ∨ g.activation_strategy = 1)
    (hdis : ∀ m ∈ g.members, m ∈ g.disabled_members)
    (hsh : shuffled.Perm (g.members.filter (fun x => x ∉ g.disabled_members)))
    (huser : userInput ≠ "") :
    (generateGroupWrapper chars online_status (some g) chat userInput false
      GenKind.normal none false shuffled rolls picks ipick genOk
      st).sentUserMessages = [userInput] ∧
    "All group members are disabled. Enable at least one to get a reply."
      ∈ (generateGroupWrapper chars online_status (some g) chat userInput
      false GenKind.normal none false shuffled rolls picks ipick genOk
      st).warnings ∧
    (generateGroupWrapper chars online_status (some g) chat userInput false
      GenKind.normal none false shuffled rolls picks ipick genOk
      st).generateCalls = [] ∧
    (generateGroupWrapper chars online_status (some g) chat userInput false
      GenKind.normal none false shuffled rolls picks ipick genOk st).error
      = none ∧
    (generateGroupWrapper chars online_status (some g) chat userInput false
      GenKind.normal none false shuffled rolls picks ipick genOk st).chat
      = chat ++ [⟨"user", true, false, userInput, none⟩] := by
  have henabled : g.members.filter (fun x => x ∉ g.disabled_members) = [] := by
    rw [List.filter_eq_nil_iff]
    intro a ha
    simpa using hdis a ha
  have hshnil : shuffled = [] := by
    rw [henabled] at hsh
    exact hsh.eq_nil
  subst hshnil
  have hresolve : ∀ (atext : String) (lm : Option Message) (iu : Bool),
      resolveActivation chars g GenKind.normal none atext lm iu [] rolls picks
        ipick = (Except.ok [], []) := by
    intro atext lm iu
    simp only [resolveActivation, henabled]
    rcases hstrat with h0 | h1
    · rw [if_pos h0, activateNaturalOrder_nil_members]
    · have h0 : g.activation_strategy ≠ 0 := by omega
      rw [if_neg h0, if_pos h1]
      rfl
  simp [generateGroupWrapper, honline, hidle, hmembers, tryBody, hresolve,
    genLoop, finallyCleanup]

/-- Witness for `generateGroupWrapper_allDisabled`: a one-member group
whose only member is disabled, triggered by typing "hello". -/
theorem generateGroupWrapper_allDisabled_witness :
    (generateGroupWrapper quietChars "ok"
      (some ⟨["d.png"], ["d.png"], 0, false⟩) [] "hello" false GenKind.normal
      none false [] (fun _ => 0) (fun _ => 0) 0 (fun _ => none)
      idleUI).sentUserMessages = ["hello"] ∧
    "All group members are disabled. Enable at least one to get a reply."
      ∈ (generateGroupWrapper quietChars "ok"
      (some ⟨["d.png"], ["d.png"], 0, false⟩) [] "hello" false GenKind.normal
      none false [] (fun _ => 0) (fun _ => 0) 0 (fun _ => none)
      idleUI).warnings ∧
    (generateGroupWrapper quietChars "ok"
      (some ⟨["d.png"], ["d.png"], 0, false⟩) [] "hello" false GenKind.normal
      none false [] (fun _ => 0) (fun _ => 0) 0 (fun _ => none)
      idleUI).generateCalls = [] ∧
    (generateGroupWrapper quietChars "ok"
      (some ⟨["d.png"], ["d.png"], 0, false⟩) [] "hello" false GenKind.normal
      none false [] (fun _ => 0) (fun _ => 0) 0 (fun _ => none)
      idleUI).error = none ∧
    (generateGroupWrapper quietChars "ok"
      (some ⟨["d.png"], ["d.png"], 0, false⟩) [] "hello" false GenKind.normal
      none false [] (fun _ => 0) (fun _ => 0) 0 (fun _ => none)
      idleUI).chat = [] ++ [⟨"user", true, false, "hello", none⟩] :=
  generateGroupWrapper_allDisabled quietChars "ok"
    ⟨["d.png"], ["d.png"], 0, false⟩ [] "hello" [] (fun _ => 0) (fun _ => 0)
    0 (fun _ => none) idleUI (by decide) rfl (by decide) (Or.inl rfl)
    (by decide) (by decide) (by decide)

end GroupChats
